import Mathlib

/-!
# Verification of the `extract_vba_source` directory-stream parser and driver

Shallow embedding of `src/extract_vba_source/extract_vba_source.py`.

Modelling conventions:

* The directory stream is a decompressed byte buffer (`List Nat`, one entry
  per byte).  Decompression (`decompress_stream`) and the compound-file
  container are external collaborators and are outside the model; the model
  starts at the first byte of the decompressed dir stream (source line 118).
* `struct.unpack("<H", s.read(2))` / `struct.unpack("<L", s.read(4))` are
  embedded as `readU16` / `readU32`: `BytesIO.read(n)` returns at most `n`
  bytes (fewer at end of stream, without raising), and `struct.unpack` then
  raises `struct.error` unless it received exactly the width it needs.  A
  short fixed-width read therefore fails; the failure is `Err.truncatedStream`
  in the error taxonomy.
* A bare payload read `dir_stream.read(n)` is embedded as `readBytes`, which
  (like `BytesIO.read`) silently returns only the remaining bytes when fewer
  than `n` remain and never fails.
* `self.check_value(name, expected, value)` is the oletools
  `VBA_Project.check_value` collaborator (not part of this repository's
  sources); it is embedded per its documented contract: equal values are a
  no-op, a mismatch raises in strict mode (`relaxed = false`) and records a
  diagnostic in relaxed mode.
* `log.error` calls that flag out-of-range sizes or invalid enumerations are
  recorded diagnostics (`Diag.valueError`); `log.debug` calls are pure trace
  and have no effect in the model.
* `self.decode_bytes(b)` decodes bytes with the project's codec; decoding
  itself is an external collaborator (the Text Decoder), so a decoded value
  is embedded as the pair of the codec in effect and the raw bytes
  (`Decoded`), which records exactly which decoding strategy was applied to
  which bytes.
* Source line 144 reads `projectlcid_id = id_tmp`; the only variable in
  scope is `id_temp` (lines 136/140), so the Python runtime raises
  `NameError` at that statement on every input.  Being part of the parse's
  data flow (it selects the tag value of the PROJECTLCID record), this is
  embedded faithfully as the fatal error `Err.nameError "id_tmp"`.  All
  source lines after 144 are consequently unreachable in `vba_project_init`;
  the record regions that the specification's claims concern are embedded as
  the standalone step functions below (`projectnameRecord`,
  `projectcodepageRecord`, `projectlibflagsRecord`, `refLoop`), each a
  direct translation of its source region.
* The reference-record loop (source lines 274-418) is embedded with an
  explicit fuel bound on iterations; every iteration consumes at least two
  bytes, so any sufficiently large fuel yields the loop's behaviour.  The
  `while True` loop's tag-aliasing control flow (line 308: `check =
  reference_reserved` falls through into the later `if` arms without
  returning to the top of the loop) is embedded with a pending-tag
  argument: `none` is the top of the loop (a fresh tag is read and the
  terminator and Name arms are tested), `some check` is the fall-through
  point just after the Name arm (only the Original/Control/Registered/
  Project arms and the final raise are tested).
* The loop in the source binds each record's fields and discards them; the
  model additionally accumulates, per recognised record, a `Ref` entry
  holding exactly the fields the source binds, so that the Reference Array
  described by the specification is observable.
-/

/-- Error taxonomy of the parse.  `truncatedStream` stands for Python's
`struct.error` on a short fixed-width read; `unexpectedFieldValue` for
`UnexpectedDataError` raised by `check_value` in strict mode;
`unexpectedData` for the raise at source line 417 (unknown reference tag);
`nameError` for a Python `NameError` on an undefined variable;
`fuelExhausted` is the artificial out-of-fuel marker of the embedded loop
and corresponds to no source behaviour. -/
inductive Err where
  | truncatedStream
  | unexpectedFieldValue (field : String) (expected observed : Nat)
  | unexpectedData (field : String) (observed : Nat)
  | nameError (name : String)
  | fuelExhausted
deriving DecidableEq, Repr

/-- A recorded diagnostic: either a `check_value` mismatch in relaxed mode,
or a `log.error` about an out-of-range / invalid value. -/
inductive Diag where
  | fieldMismatch (field : String) (expected observed : Nat)
  | valueError (field : String) (observed : Nat)
deriving DecidableEq, Repr

/-- Parser state: the remaining bytes of the dir stream and the diagnostics
recorded so far. -/
structure PState where
  buf : List Nat
  diags : List Diag
deriving DecidableEq, Repr

/-- A byte span decoded by the Text Decoder collaborator: the codec that was
applied and the raw bytes it was applied to. -/
structure Decoded where
  codec : String
  bytes : List Nat
deriving DecidableEq, Repr

/-- `struct.unpack("<H", dir_stream.read(2))[0]`: two bytes, little endian;
`struct.error` (`truncatedStream`) if fewer than two bytes remain. -/
def readU16 (st : PState) : Except Err (Nat × PState) :=
  match st.buf with
  | b0 :: b1 :: rest => .ok (b0 + 256 * b1, { st with buf := rest })
  | _ => .error .truncatedStream

/-- `struct.unpack("<L", dir_stream.read(4))[0]`: four bytes, little endian;
`struct.error` (`truncatedStream`) if fewer than four bytes remain. -/
def readU32 (st : PState) : Except Err (Nat × PState) :=
  match st.buf with
  | b0 :: b1 :: b2 :: b3 :: rest =>
      .ok (b0 + 256 * b1 + 65536 * b2 + 16777216 * b3, { st with buf := rest })
  | _ => .error .truncatedStream

/-- `dir_stream.read(n)` for a payload: `BytesIO.read` returns at most `n`
bytes, silently returning only the remaining bytes at end of stream; it
never fails. -/
def readBytes (n : Nat) (st : PState) : List Nat × PState :=
  (st.buf.take n, { st with buf := st.buf.drop n })

/-- Modelled from the spec: the Checked-Value Policy, i.e. the oletools
collaborator `VBA_Project.check_value(name, expected, value)` (outside
`src/`).  Equal values: no effect.  Mismatch: in relaxed mode a diagnostic
is recorded and parsing continues, in strict mode the parse fails with
`UnexpectedDataError` carrying the field name, expected and observed
values. -/
def check_value (relaxed : Bool) (field : String) (expected observed : Nat)
    (st : PState) : Except Err PState :=
  if observed = expected then .ok st
  else if relaxed then
    .ok { st with diags := st.diags ++ [.fieldMismatch field expected observed] }
  else
    .error (.unexpectedFieldValue field expected observed)

/-- Little-endian byte encoding of a 16-bit value (used in theorem
statements to build streams; meaningful for `n < 2^16`). -/
def u16le (n : Nat) : List Nat := [n % 256, n / 256]

/-- Little-endian byte encoding of a 32-bit value (used in theorem
statements to build streams; meaningful for `n < 2^32`). -/
def u32le (n : Nat) : List Nat :=
  [n % 256, n / 256 % 256, n / 65536 % 256, n / 16777216]

/-- PROJECTSYSKIND record, source lines 118-132: tag checked against
0x0001, size against 0x0004, then the 4-byte SysKind; a SysKind outside the
`SYSKIND_NAME` table records a `log.error` diagnostic (not fatal). -/
def projectsyskindRecord (relaxed : Bool) (st : PState) :
    Except Err (Nat × PState) := do
  let (projectsyskindId, st) ← readU16 st
  let st ← check_value relaxed "PROJECTSYSKIND_Id" 0x0001 projectsyskindId st
  let (projectsyskindSize, st) ← readU32 st
  let st ← check_value relaxed "PROJECTSYSKIND_Size" 0x0004 projectsyskindSize st
  let (syskind, st) ← readU32 st
  let st :=
    if syskind ∈ ([0x00, 0x01, 0x02, 0x03] : List Nat) then st
    else { st with diags := st.diags ++ [.valueError "PROJECTSYSKIND_SysKind" syskind] }
  pure (syskind, st)

/-- Optional extra field before PROJECTLCID, source lines 136-140 (the
issue-700 "Temp Fix"): a 2-byte tag is read; if it equals 0x004A, a 4-byte
declared size is read, then `struct.unpack("<L", dir_stream.read(size_temp))`
reads `size_temp` bytes and unpacks them as one little-endian 32-bit value,
which raises `struct.error` unless the read returned exactly 4 bytes; a
fresh 2-byte tag is then read.  The function returns the tag left in
`id_temp`. -/
def tempFieldStep (st : PState) : Except Err (Nat × PState) := do
  let (idTemp, st) ← readU16 st
  if idTemp = 0x004A then do
    let (sizeTemp, st) ← readU32 st
    let (valueBytes, st) := readBytes sizeTemp st
    if valueBytes.length = 4 then do
      let (idTemp2, st) ← readU16 st
      pure (idTemp2, st)
    else .error .truncatedStream
  else pure (idTemp, st)

/-- `vba_project_init` on the decompressed dir stream, source lines
118-144.  After the PROJECTSYSKIND record and the optional 0x004A field,
source line 144 executes `projectlcid_id = id_tmp`; the name `id_tmp` is
undefined (the value just read lives in `id_temp`), so the Python runtime
raises `NameError` there on every input, and lines 145-418 are
unreachable. -/
def vbaProjectInit (relaxed : Bool) (st : PState) : Except Err PState := do
  let (_syskind, st) ← projectsyskindRecord relaxed st
  let (_idTemp, _st) ← tempFieldStep st
  .error (.nameError "id_tmp")

/-- Modelled from the spec: the Text Decoder collaborator
`oletools.common.codepages.codepage2codec` (outside `src/`), which resolves
a Windows code page number `N` to the Python codec `cpN` for the standard
code pages. -/
def codepage2codec (codepage : Nat) : String := "cp" ++ toString codepage

/-- PROJECTCODEPAGE record, source lines 162-172: tag checked against
0x0003, size against 0x0002, the 2-byte code page is read and the project
codec is resolved from it via `codepage2codec`.  (In the current source
this region is unreachable: `vba_project_init` fails at line 144.) -/
def projectcodepageRecord (relaxed : Bool) (st : PState) :
    Except Err ((Nat × String) × PState) := do
  let (projectcodepageId, st) ← readU16 st
  let st ← check_value relaxed "PROJECTCODEPAGE_Id" 0x0003 projectcodepageId st
  let (projectcodepageSize, st) ← readU32 st
  let st ← check_value relaxed "PROJECTCODEPAGE_Size" 0x0002 projectcodepageSize st
  let (codepage, st) ← readU16 st
  pure ((codepage, codepage2codec codepage), st)

/-- PROJECTNAME record, source lines 177-185: tag checked against 0x0004,
the 4-byte declared size is read; then, exactly as in the source, the
payload read and decode are nested inside the out-of-range branch: only
when the declared size is outside [1, 128] is a diagnostic recorded, the
payload read and the name decoded; for an in-range size nothing further is
read and no name is produced.  (In the current source this region is
unreachable: `vba_project_init` fails at line 144.) -/
def projectnameRecord (relaxed : Bool) (codec : String) (st : PState) :
    Except Err (Option Decoded × PState) := do
  let (projectnameId, st) ← readU16 st
  let st ← check_value relaxed "PROJECTNAME_Id" 0x0004 projectnameId st
  let (sizeofProjectname, st) ← readU32 st
  if sizeofProjectname < 1 ∨ sizeofProjectname > 128 then
    let st := { st with
      diags := st.diags ++ [.valueError "PROJECTNAME_SizeOfProjectName" sizeofProjectname] }
    let (projectnameBytes, st) := readBytes sizeofProjectname st
    pure (some ⟨codec, projectnameBytes⟩, st)
  else
    pure (none, st)

/-- PROJECTLIBFLAGS record, source lines 237-243: tag checked against
0x0008, size against 0x0004, and the 4-byte ProjectLibFlags value checked
against 0x0000 via the Checked-Value Policy.  (In the current source this
region is unreachable: `vba_project_init` fails at line 144.) -/
def projectlibflagsRecord (relaxed : Bool) (st : PState) : Except Err PState := do
  let (projectlibflagsId, st) ← readU16 st
  let st ← check_value relaxed "PROJECTLIBFLAGS_Id" 0x0008 projectlibflagsId st
  let (projectlibflagsSize, st) ← readU32 st
  let st ← check_value relaxed "PROJECTLIBFLAGS_Size" 0x0004 projectlibflagsSize st
  let (projectlibflags, st) ← readU32 st
  check_value relaxed "PROJECTLIBFLAGS_ProjectLibFlags" 0x0000 projectlibflags st

/-- A Reference Array entry: one recognised record of the reference loop,
holding the fields the source binds for that record kind. -/
inductive Ref where
  | name (nameBytes : List Nat) (nameUnicode : Option (List Nat))
  | original (libidOriginal : List Nat)
  | control (libidTwiddled : List Nat)
      (nameExtended : Option (List Nat × Option (List Nat)))
      (libidExtended : List Nat) (originalTypeLib : List Nat) (cookie : Nat)
  | registered (libid : List Nat)
  | project (libidAbsolute libidRelative : List Nat) (major minor : Nat)
deriving DecidableEq, Repr

/-- The reference-record loop, source lines 274-418.  `pending = none` is
the top of the `while True` loop: a fresh 2-byte tag is read and dispatched
(terminator 0x000F ends the loop; 0x0016 parses a REFERENCENAME whose
2-byte trailing field, when not the unicode marker 0x003E, becomes the
pending tag without a fresh read — source lines 297-308).  `pending = some
check` is the fall-through point after the Name arm: only the 0x0033 /
0x002F / 0x000D / 0x000E arms are tested and any other value reaches the
raise at line 417 (`UnexpectedDataError` carrying the observed tag),
regardless of relaxed/strict mode.  `fuel` bounds loop iterations; each
iteration consumes fuel and the source loop consumes at least two bytes per
fresh iteration, so any sufficiently large fuel realises the source
behaviour. -/
def refLoop (relaxed : Bool) : Nat → Option Nat → PState → List Ref →
    Except Err (List Ref × PState)
  | 0, _, _, _ => .error .fuelExhausted
  | fuel + 1, none, st, acc => do
    let (check, st) ← readU16 st
    if check = 0x000F then
      .ok (acc, st)
    else if check = 0x0016 then do
      -- REFERENCENAME, lines 281-309
      let (referenceSizeofName, st) ← readU32 st
      let (referenceName, st) := readBytes referenceSizeofName st
      let (referenceReserved, st) ← readU16 st
      if referenceReserved = 0x003E then do
        let (referenceSizeofNameUnicode, st) ← readU32 st
        let (referenceNameUnicode, st) := readBytes referenceSizeofNameUnicode st
        refLoop relaxed fuel none st (acc ++ [.name referenceName (some referenceNameUnicode)])
      else
        refLoop relaxed fuel (some referenceReserved) st (acc ++ [.name referenceName none])
    else
      refLoop relaxed fuel (some check) st acc
  | fuel + 1, some check, st, acc =>
    if check = 0x0033 then do
      -- REFERENCEORIGINAL, lines 311-321
      let (referenceoriginalSizeofLibid, st) ← readU32 st
      let (referenceoriginalLibid, st) := readBytes referenceoriginalSizeofLibid st
      refLoop relaxed fuel none st (acc ++ [.original referenceoriginalLibid])
    else if check = 0x002F then do
      -- REFERENCECONTROL, lines 323-375
      let (_referencecontrolSizetwiddled, st) ← readU32 st
      let (referencecontrolSizeofLibidTwiddled, st) ← readU32 st
      let (referencecontrolLibidTwiddled, st) := readBytes referencecontrolSizeofLibidTwiddled st
      let (referencecontrolReserved1, st) ← readU32 st
      let st ← check_value relaxed "REFERENCECONTROL_Reserved1" 0x0000 referencecontrolReserved1 st
      let (referencecontrolReserved2, st) ← readU16 st
      let st ← check_value relaxed "REFERENCECONTROL_Reserved2" 0x0000 referencecontrolReserved2 st
      let (check2, st) ← readU16 st
      let (nameExtended, reserved3, st) ←
        if check2 = 0x0016 then do
          let (extSizeofName, st) ← readU32 st
          let (extName, st) := readBytes extSizeofName st
          let (extReserved, st) ← readU16 st
          if extReserved = 0x003E then do
            let (extSizeofNameUnicode, st) ← readU32 st
            let (extNameUnicode, st) := readBytes extSizeofNameUnicode st
            let (reserved3, st) ← readU16 st
            pure ((some (extName, some extNameUnicode), reserved3, st) :
              Option (List Nat × Option (List Nat)) × Nat × PState)
          else
            pure (some (extName, none), extReserved, st)
        else
          pure (none, check2, st)
      let st ← check_value relaxed "REFERENCECONTROL_Reserved3" 0x0030 reserved3 st
      let (_referencecontrolSizeExtended, st) ← readU32 st
      let (referencecontrolSizeofLibidExtended, st) ← readU32 st
      let (referencecontrolLibidExtended, st) := readBytes referencecontrolSizeofLibidExtended st
      let (_referencecontrolReserved4, st) ← readU32 st
      let (_referencecontrolReserved5, st) ← readU16 st
      let (referencecontrolOriginalTypeLib, st) := readBytes 16 st
      let (referencecontrolCookie, st) ← readU32 st
      refLoop relaxed fuel none st (acc ++
        [.control referencecontrolLibidTwiddled nameExtended
          referencecontrolLibidExtended referencecontrolOriginalTypeLib referencecontrolCookie])
    else if check = 0x000D then do
      -- REFERENCEREGISTERED, lines 377-392
      let (_referenceregisteredSize, st) ← readU32 st
      let (referenceregisteredSizeofLibid, st) ← readU32 st
      let (referenceregisteredLibid, st) := readBytes referenceregisteredSizeofLibid st
      let (referenceregisteredReserved1, st) ← readU32 st
      let st ← check_value relaxed "REFERENCEREGISTERED_Reserved1" 0x0000 referenceregisteredReserved1 st
      let (referenceregisteredReserved2, st) ← readU16 st
      let st ← check_value relaxed "REFERENCEREGISTERED_Reserved2" 0x0000 referenceregisteredReserved2 st
      refLoop relaxed fuel none st (acc ++ [.registered referenceregisteredLibid])
    else if check = 0x000E then do
      -- REFERENCEPROJECT, lines 394-413
      let (_referenceprojectSize, st) ← readU32 st
      let (referenceprojectSizeofLibidAbsolute, st) ← readU32 st
      let (referenceprojectLibidAbsolute, st) := readBytes referenceprojectSizeofLibidAbsolute st
      let (referenceprojectSizeofLibidRelative, st) ← readU32 st
      let (referenceprojectLibidRelative, st) := readBytes referenceprojectSizeofLibidRelative st
      let (referenceprojectMajorversion, st) ← readU32 st
      let (referenceprojectMinorversion, st) ← readU16 st
      refLoop relaxed fuel none st (acc ++
        [.project referenceprojectLibidAbsolute referenceprojectLibidRelative
          referenceprojectMajorversion referenceprojectMinorversion])
    else
      -- line 415-417: always fatal, independent of relaxed/strict
      .error (.unexpectedData "reference type" check)

/-- The fixed allow-list of container extensions, source lines 8-11
(`OFFICE_FILE_EXTENSIONS`). -/
def officeFileExtensions : List String :=
  [".xlsb", ".xls", ".xlsm", ".xla", ".xlt", ".xlam", ".pptm"]

/-- Index of the last '.' in a character list, if any. -/
def rfindDot : List Char → Option Nat
  | [] => none
  | c :: rest =>
    match rfindDot rest with
    | some i => some (i + 1)
    | none => if c = '.' then some 0 else none

/-- `pathlib.PurePath.suffix`: the extension of the final path component —
the substring from the last '.' onwards, provided that dot is neither the
first nor the last character of the name; otherwise the empty string. -/
def pathSuffix (name : String) : String :=
  let cs := name.toList
  match rfindDot cs with
  | none => ""
  | some i => if 0 < i ∧ i < cs.length - 1 then String.mk (cs.drop i) else ""

/-- Python `str.startswith(p)`: the characters of `p` are a prefix of the
characters of the string. -/
def strStartsWith (s p : String) : Bool := p.toList.isPrefixOf s.toList

/-- Python `str.lower()` for the ASCII names handled here: each character
lowercased. -/
def strToLower (s : String) : String := String.mk (s.toList.map Char.toLower)

/-- One element of the driver's `sources` argument: the path string,
whether it names a directory, and (for a directory) the file names its
`glob` traversal produces. -/
structure SrcArg where
  name : String
  isDir : Bool
  listing : List String
deriving DecidableEq, Repr

/-- `get_source_paths`, source lines 31-40: a directory source yields the
globbed files that do not start with the lock-file marker `~$` and whose
lowercased suffix is in the allow-list; a non-directory source is yielded
unconditionally.  (The glob result is the `listing` field; `absolute()` is
path resolution by the filesystem collaborator and is the identity here.) -/
def getSourcePaths (sources : List SrcArg) : List String :=
  sources.flatMap (fun s =>
    if s.isDir then
      s.listing.filter (fun f =>
        !(strStartsWith f "~$") && officeFileExtensions.contains (strToLower (pathSuffix f)))
    else [s.name])

/-- A filesystem path as a list of components. -/
abbrev FPath := List String

/-- `Path.mkdir(parents=True, exist_ok=True)`: after it, the directory and
all its ancestors exist.  The filesystem is the list of existing paths;
adding duplicates is harmless since existence is membership. -/
def mkdirP (p : FPath) (fs : List FPath) : List FPath := fs ++ p.inits

/-- `shutil.rmtree(p)`: removes `p` and everything under it. -/
def rmtreeFS (p : FPath) (fs : List FPath) : List FPath :=
  fs.filter (fun q => !(p.isPrefixOf q))

/-- The per-source destination preparation in `main`, source lines 448-453:
`dest = root/basename`; `dest.mkdir(parents=True, exist_ok=True)`;
`rmtree(dest)`.  Runs before the extraction loop over the source's
modules (line 457 onwards). -/
def destPrepare (root : FPath) (basename : String) (fs : List FPath) : List FPath :=
  rmtreeFS (root ++ [basename]) (mkdirP (root ++ [basename]) fs)

/-- `get_outputpath`, source lines 43-54: the extension is
`filename.split('.')[-1]`; `.cls` files go to `class`, `.frm` to `form`,
everything else to `module`; the subdirectory is created (with parents) if
it does not exist; the returned path appends `.vb` unless
`use_orig_extension` is set.  Returns the output file path and the
filesystem after the `mkdir`. -/
def getOutputpath (parentDir : FPath) (filename : String) (useOrigExtension : Bool)
    (fs : List FPath) : FPath × List FPath :=
  let extension := (filename.splitOn ".").getLastD ""
  let subdir :=
    if extension = "cls" then parentDir ++ ["class"]
    else if extension = "frm" then parentDir ++ ["form"]
    else parentDir ++ ["module"]
  let fs := if subdir ∈ fs then fs else mkdirP subdir fs
  (subdir ++ [filename ++ (if useOrigExtension then "" else ".vb")], fs)

/-- The slice of a `VBA_Project` that `extract_macros` manipulates: its
`codec` attribute. -/
structure ProjectM where
  codec : String
deriving DecidableEq, Repr

/-- Source line 431 in `extract_macros`: `project.codec = vba_encoding` —
the project's codec attribute is overwritten with the driver-supplied
`--src-encoding` value after construction and before
`parse_project_stream()` / `parse_modules()`. -/
def extractMacrosSetCodec (project : ProjectM) (vbaEncoding : String) : ProjectM :=
  { project with codec := vbaEncoding }

/-- The codec in effect when modules are parsed, as the composition of the
constructor's stream-derived codec (source line 171, `codepage2codec` of
the codepage read from the dir stream) with the `extract_macros` overwrite
(source line 431). -/
def moduleDecodeCodec (streamCodepage : Nat) (vbaEncoding : String) : String :=
  (extractMacrosSetCodec ⟨codepage2codec streamCodepage⟩ vbaEncoding).codec

/-- The minimal well-formed dir-stream header of spec §8: syskind = 1,
lcid = lcid_invoke = 0x409, codepage 1252, empty name, docstring and
constants, empty help-file paths, help context 0, lib flags 0, version
1.0, followed by a reference array holding only the terminator 0x000F.
All record tags, sizes and reserved words are the expected constants. -/
def minimalDirStream : List Nat :=
  [0x01, 0x00, 0x04, 0x00, 0x00, 0x00, 0x01, 0x00, 0x00, 0x00,  -- PROJECTSYSKIND, syskind = 1
   0x02, 0x00, 0x04, 0x00, 0x00, 0x00, 0x09, 0x04, 0x00, 0x00,  -- PROJECTLCID, lcid = 0x409
   0x14, 0x00, 0x04, 0x00, 0x00, 0x00, 0x09, 0x04, 0x00, 0x00,  -- PROJECTLCIDINVOKE = 0x409
   0x03, 0x00, 0x02, 0x00, 0x00, 0x00, 0xE4, 0x04,              -- PROJECTCODEPAGE = 1252
   0x04, 0x00, 0x00, 0x00, 0x00, 0x00,                          -- PROJECTNAME, size 0 (empty)
   0x05, 0x00, 0x00, 0x00, 0x00, 0x00, 0x40, 0x00, 0x00, 0x00, 0x00, 0x00,  -- PROJECTDOCSTRING
   0x06, 0x00, 0x00, 0x00, 0x00, 0x00, 0x3D, 0x00, 0x00, 0x00, 0x00, 0x00,  -- PROJECTHELPFILEPATH
   0x07, 0x00, 0x04, 0x00, 0x00, 0x00, 0x00, 0x00, 0x00, 0x00,  -- PROJECTHELPCONTEXT
   0x08, 0x00, 0x04, 0x00, 0x00, 0x00, 0x00, 0x00, 0x00, 0x00,  -- PROJECTLIBFLAGS = 0
   0x09, 0x00, 0x04, 0x00, 0x00, 0x00, 0x01, 0x00, 0x00, 0x00, 0x00, 0x00,  -- PROJECTVERSION
   0x0C, 0x00, 0x00, 0x00, 0x00, 0x00, 0x3C, 0x00, 0x00, 0x00, 0x00, 0x00,  -- PROJECTCONSTANTS
   0x0F, 0x00]                                                  -- reference array: terminator

/-- The same stream with the PROJECTLIBFLAGS value set to 1 (nonzero). -/
def libflagsOneDirStream : List Nat :=
  [0x01, 0x00, 0x04, 0x00, 0x00, 0x00, 0x01, 0x00, 0x00, 0x00,
   0x02, 0x00, 0x04, 0x00, 0x00, 0x00, 0x09, 0x04, 0x00, 0x00,
   0x14, 0x00, 0x04, 0x00, 0x00, 0x00, 0x09, 0x04, 0x00, 0x00,
   0x03, 0x00, 0x02, 0x00, 0x00, 0x00, 0xE4, 0x04,
   0x04, 0x00, 0x00, 0x00, 0x00, 0x00,
   0x05, 0x00, 0x00, 0x00, 0x00, 0x00, 0x40, 0x00, 0x00, 0x00, 0x00, 0x00,
   0x06, 0x00, 0x00, 0x00, 0x00, 0x00, 0x3D, 0x00, 0x00, 0x00, 0x00, 0x00,
   0x07, 0x00, 0x04, 0x00, 0x00, 0x00, 0x00, 0x00, 0x00, 0x00,
   0x08, 0x00, 0x04, 0x00, 0x00, 0x00, 0x01, 0x00, 0x00, 0x00,  -- PROJECTLIBFLAGS = 1
   0x09, 0x00, 0x04, 0x00, 0x00, 0x00, 0x01, 0x00, 0x00, 0x00, 0x00, 0x00,
   0x0C, 0x00, 0x00, 0x00, 0x00, 0x00, 0x3C, 0x00, 0x00, 0x00, 0x00, 0x00,
   0x0F, 0x00]

theorem readU16_cons (b0 b1 : Nat) (rest : List Nat) (ds : List Diag) :
    readU16 ⟨b0 :: b1 :: rest, ds⟩ = .ok (b0 + 256 * b1, ⟨rest, ds⟩) := rfl

theorem readU16_u16le {t : Nat} (rest : List Nat) (ds : List Diag) :
    readU16 ⟨u16le t ++ rest, ds⟩ = .ok (t, ⟨rest, ds⟩) := by
  have h : t % 256 + 256 * (t / 256) = t := by omega
  simp [u16le, readU16, h]

theorem readU32_u32le {n : Nat} (rest : List Nat) (ds : List Diag) :
    readU32 ⟨u32le n ++ rest, ds⟩ = .ok (n, ⟨rest, ds⟩) := by
  have h : n % 256 + 256 * (n / 256 % 256) + 65536 * (n / 65536 % 256)
      + 16777216 * (n / 16777216) = n := by omega
  simp [u32le, readU32, h]

theorem readBytes_exact (bs rest : List Nat) (ds : List Diag) :
    readBytes bs.length ⟨bs ++ rest, ds⟩ = (bs, ⟨rest, ds⟩) := by
  simp [readBytes]

theorem bindE_ok {α β : Type} (a : α) (f : α → Except Err β) :
    (Except.ok a >>= f) = f a := rfl

theorem bindE_error {α β : Type} (e : Err) (f : α → Except Err β) :
    ((Except.error e : Except Err α) >>= f) = Except.error e := rfl

theorem pureE {α : Type} (a : α) : (pure a : Except Err α) = Except.ok a := rfl

/-- **C1.**  The minimal well-formed header followed by a lone terminator
tag does *not* parse: `vba_project_init` raises `NameError` at source line
144 (`projectlcid_id = id_tmp`, an undefined name) before the PROJECTLCID
record, in relaxed and in strict mode alike, so no Project Metadata is ever
produced. -/
theorem c1_minimal_stream_eval :
    vbaProjectInit true ⟨minimalDirStream, []⟩ = .error (.nameError "id_tmp") ∧
    vbaProjectInit false ⟨minimalDirStream, []⟩ = .error (.nameError "id_tmp") :=
  ⟨rfl, rfl⟩

/-- **C3.**  The PROJECTNAME record parser reads the payload only when the
declared size is *outside* [1, 128]: for an in-range declared size (here 16)
the payload bytes are left unconsumed in the stream (cursor
desynchronisation) and no name is produced, while for an out-of-range size
(here 0) a diagnostic is recorded and the payload is consumed. -/
theorem c3_projectname_eval :
    projectnameRecord true "cp1252"
        ⟨[0x04, 0x00, 0x10, 0x00, 0x00, 0x00] ++ List.replicate 16 0x41 ++ [0x05, 0x00], []⟩
      = .ok (none, ⟨List.replicate 16 0x41 ++ [0x05, 0x00], []⟩) ∧
    projectnameRecord true "cp1252" ⟨[0x04, 0x00, 0x00, 0x00, 0x00, 0x00, 0x05, 0x00], []⟩
      = .ok (some ⟨"cp1252", []⟩,
          ⟨[0x05, 0x00], [.valueError "PROJECTNAME_SizeOfProjectName" 0]⟩) :=
  ⟨rfl, rfl⟩

/-- **C6.**  A stream with nonzero `lib_flags`: the full parse fails with
the `NameError` of source line 144 long before the PROJECTLIBFLAGS record
is reached, so neither the claimed relaxed-mode metadata-with-one-diagnostic
nor the claimed strict-mode `UnexpectedFieldValue` is produced by the code
as written.  The PROJECTLIBFLAGS region itself (source lines 237-243),
parsed in isolation, does behave exactly as the claim describes: relaxed
mode yields exactly one diagnostic for the `ProjectLibFlags` field and
continues; strict mode fails with `UnexpectedFieldValue` for that field. -/
theorem c6_libflags_eval :
    vbaProjectInit true ⟨libflagsOneDirStream, []⟩ = .error (.nameError "id_tmp") ∧
    projectlibflagsRecord true
        ⟨[0x08, 0x00, 0x04, 0x00, 0x00, 0x00, 0x01, 0x00, 0x00, 0x00, 0xAA], []⟩
      = .ok ⟨[0xAA], [.fieldMismatch "PROJECTLIBFLAGS_ProjectLibFlags" 0 1]⟩ ∧
    projectlibflagsRecord false
        ⟨[0x08, 0x00, 0x04, 0x00, 0x00, 0x00, 0x01, 0x00, 0x00, 0x00], []⟩
      = .error (.unexpectedFieldValue "PROJECTLIBFLAGS_ProjectLibFlags" 0 1) :=
  ⟨rfl, rfl, rfl⟩

/-- **C4.**  At any loop-top position of the reference-array parser (any
remaining stream `rest` after a 2-byte tag `t` that is none of the six
known tags), the parse fails with the unknown-reference-tag error carrying
the observed tag, for any fuel reserve and independently of relaxed or
strict mode. -/
theorem c4_unknown_reference_tag (relaxed : Bool) (fuel t : Nat) (rest : List Nat)
    (ds : List Diag) (acc : List Ref)
    (hmem : t ∉ ([0x000F, 0x0016, 0x0033, 0x002F, 0x000D, 0x000E] : List Nat)) :
    refLoop relaxed (fuel + 1 + 1) none ⟨u16le t ++ rest, ds⟩ acc
      = .error (.unexpectedData "reference type" t) := by
  simp only [List.mem_cons, List.not_mem_nil, or_false] at hmem
  push_neg at hmem
  obtain ⟨h15, h22, h51, h47, h13, h14⟩ := hmem
  simp [refLoop, readU16_u16le, bindE_ok, h15, h22, h51, h47, h13, h14]

/-- Witness for `c4_unknown_reference_tag` at the tag 0xFFFF with an empty
remainder. -/
theorem c4_witness :
    refLoop true (0 + 1 + 1) none ⟨u16le 0xFFFF ++ [], []⟩ []
      = .error (.unexpectedData "reference type" 0xFFFF) :=
  c4_unknown_reference_tag true 0 0xFFFF [] [] [] (by decide)

/-- **C2 counterexample.**  A `Name` reference record (tag 0x0016, declared
name size 0) whose 2-byte trailing field is the terminator tag 0x000F: the
loop does *not* end normally with one Name entry — the trailing value falls
through past the (already tested) terminator and Name cases into the raise
at source line 417, so the parse fails with the unknown-reference-tag error
carrying 0x000F. -/
theorem c2_counterexample :
    refLoop true 5 none ⟨[0x16, 0x00, 0x00, 0x00, 0x00, 0x00, 0x0F, 0x00], []⟩ []
      = .error (.unexpectedData "reference type" 0x000F) ∧
    refLoop true 5 none ⟨[0x16, 0x00, 0x00, 0x00, 0x00, 0x00, 0x0F, 0x00], []⟩ []
      ≠ .ok ([.name [] none], ⟨[], []⟩) := by
  have h1 : refLoop true 5 none ⟨[0x16, 0x00, 0x00, 0x00, 0x00, 0x00, 0x0F, 0x00], []⟩ []
      = .error (.unexpectedData "reference type" 0x000F) := rfl
  refine ⟨h1, ?_⟩
  rw [h1]
  exact fun hcontra => Except.noConfusion hcontra

theorem refLoop_terminator (relaxed : Bool) (f : Nat) (rest : List Nat)
    (ds : List Diag) (acc : List Ref) :
    refLoop relaxed (f + 1) none ⟨0x0F :: 0x00 :: rest, ds⟩ acc = .ok (acc, ⟨rest, ds⟩) := by
  simp [refLoop, readU16_cons, bindE_ok]

theorem refLoop_name_alias_orig (relaxed : Bool) (f : Nat) (nb rest : List Nat)
    (ds : List Diag) (acc : List Ref) :
    refLoop relaxed (f + 1) none
        ⟨0x16 :: 0x00 :: (u32le nb.length ++ (nb ++ (0x33 :: 0x00 :: rest))), ds⟩ acc
      = refLoop relaxed f (some 0x33) ⟨rest, ds⟩ (acc ++ [.name nb none]) := by
  simp [refLoop, readU16_cons, readU32_u32le, readBytes_exact, bindE_ok]

theorem refLoop_name_alias_term (relaxed : Bool) (f : Nat) (nb rest : List Nat)
    (ds : List Diag) (acc : List Ref) :
    refLoop relaxed (f + 1) none
        ⟨0x16 :: 0x00 :: (u32le nb.length ++ (nb ++ (0x0F :: 0x00 :: rest))), ds⟩ acc
      = refLoop relaxed f (some 0x0F) ⟨rest, ds⟩ (acc ++ [.name nb none]) := by
  simp [refLoop, readU16_cons, readU32_u32le, readBytes_exact, bindE_ok]

theorem refLoop_pending_original (relaxed : Bool) (f : Nat) (ob rest : List Nat)
    (ds : List Diag) (acc : List Ref) :
    refLoop relaxed (f + 1) (some 0x33) ⟨u32le ob.length ++ (ob ++ rest), ds⟩ acc
      = refLoop relaxed f none ⟨rest, ds⟩ (acc ++ [.original ob]) := by
  simp [refLoop, readU32_u32le, readBytes_exact, bindE_ok]

theorem refLoop_pending_unknown (relaxed : Bool) (f t : Nat) (st : PState)
    (acc : List Ref) (h51 : t ≠ 51) (h47 : t ≠ 47) (h13 : t ≠ 13) (h14 : t ≠ 14) :
    refLoop relaxed (f + 1) (some t) st acc
      = .error (.unexpectedData "reference type" t) := by
  simp [refLoop, h51, h47, h13, h14]

/-- **C2 amended.**  When a `Name` record's 2-byte trailing field is not
the unicode marker 0x003E, the trailing value is indeed dispatched as the
next record's tag without a fresh read — but only through the Original /
Control / Registered / Project arms.  Part 1: with trailing value 0x0033
the four bytes immediately after the trailing field are consumed as the
Original record's declared size (no fresh tag is read), yielding the
entries `[Name, Original]` once the following terminator ends the loop.
Part 2: a trailing value equal to the terminator tag 0x000F is *not*
re-tested against the terminator case and the parse fails with the
unknown-reference-tag error instead of ending with one Name entry. -/
theorem c2_alias_dispatch (relaxed : Bool) (fuel : Nat) (nb ob rest : List Nat)
    (ds : List Diag) (acc : List Ref) :
    refLoop relaxed (fuel + 1 + 1 + 1) none
        ⟨0x16 :: 0x00 :: (u32le nb.length ++ (nb ++ (0x33 :: 0x00 ::
          (u32le ob.length ++ (ob ++ (0x0F :: 0x00 :: rest)))))), ds⟩ acc
      = .ok (acc ++ [.name nb none, .original ob], ⟨rest, ds⟩) ∧
    refLoop relaxed (fuel + 1 + 1) none
        ⟨0x16 :: 0x00 :: (u32le nb.length ++ (nb ++ (0x0F :: 0x00 :: rest))), ds⟩ acc
      = .error (.unexpectedData "reference type" 0x000F) := by
  constructor
  · rw [refLoop_name_alias_orig, refLoop_pending_original, refLoop_terminator,
      List.append_assoc]
    rfl
  · rw [refLoop_name_alias_term, refLoop_pending_unknown relaxed fuel 0x000F _ _
      (by decide) (by decide) (by decide) (by decide)]

theorem readU32_cons (b0 b1 b2 b3 : Nat) (rest : List Nat) (ds : List Diag) :
    readU32 ⟨b0 :: b1 :: b2 :: b3 :: rest, ds⟩
      = .ok (b0 + 256 * b1 + 65536 * b2 + 16777216 * b3, ⟨rest, ds⟩) := rfl

/-- **C5 counterexample.**  A payload read of a declared size (4) against a
buffer holding only 2 bytes does *not* fail with `TruncatedStream`: exactly
as `BytesIO.read`, it silently returns the 2 remaining bytes and parsing
continues. -/
theorem c5_counterexample :
    readBytes 4 ⟨[0xAB, 0xCD], []⟩ = ([0xAB, 0xCD], ⟨[], []⟩) := rfl

/-- **C5 amended.**  Fixed-width integer reads (2- and 4-byte, via
`struct.unpack`) fail with `TruncatedStream` whenever fewer bytes remain
than requested; a payload read of a declared size never fails — when fewer
bytes remain it silently returns exactly the remaining bytes (its result
length is `min n remaining`). -/
theorem c5_reads_amended (st : PState) :
    (st.buf.length < 2 → readU16 st = .error .truncatedStream) ∧
    (st.buf.length < 4 → readU32 st = .error .truncatedStream) ∧
    (∀ n : Nat, (readBytes n st).1.length = min n st.buf.length) ∧
    (∀ n : Nat, st.buf.length ≤ n → (readBytes n st).1 = st.buf) := by
  obtain ⟨buf, ds⟩ := st
  refine ⟨?_, ?_, ?_, ?_⟩
  · intro h
    rcases buf with _ | ⟨b0, _ | ⟨b1, r⟩⟩
    · rfl
    · rfl
    · simp [List.length_cons] at h
      omega
  · intro h
    rcases buf with _ | ⟨b0, _ | ⟨b1, _ | ⟨b2, _ | ⟨b3, r⟩⟩⟩⟩
    · rfl
    · rfl
    · rfl
    · rfl
    · simp [List.length_cons] at h
      omega
  · intro n
    simp [readBytes]
  · intro n h
    simp [readBytes, List.take_of_length_le h]

/-- Witness for `c5_reads_amended` at a one-byte buffer. -/
theorem c5_witness :
    readU16 ⟨[0x07], []⟩ = .error .truncatedStream ∧
    readU32 ⟨[0x07], []⟩ = .error .truncatedStream ∧
    (readBytes 4 ⟨[0x07], []⟩).1 = [0x07] :=
  ⟨(c5_reads_amended ⟨[0x07], []⟩).1 (by decide),
   (c5_reads_amended ⟨[0x07], []⟩).2.1 (by decide),
   (c5_reads_amended ⟨[0x07], []⟩).2.2.2 4 (by decide)⟩

/-- **C7 counterexample.**  The optional 0x004A field with declared size 2:
the parser does not read-and-discard a 2-byte payload and continue — it
reads the 2 bytes and then `struct.unpack("<L", ...)` fails for want of
exactly 4 bytes, so the parse aborts with `TruncatedStream` instead of
proceeding to the locale-id record. -/
theorem c7_counterexample :
    tempFieldStep ⟨[0x4A, 0x00, 0x02, 0x00, 0x00, 0x00, 0xAA, 0xBB, 0xCC, 0xDD], []⟩
      = .error .truncatedStream := rfl

/-- **C7 amended.**  (1) With the optional tag 0x004A present and declared
size 4, the 4-byte payload is read and discarded and the next 2-byte tag is
read fresh and returned.  (2) With the tag absent, the value already read
is returned directly.  (3) With the tag present but a declared size other
than 4 (and that many bytes available), the payload is read and the
4-byte unpack fails, aborting the parse.  (4) In every case the full
`vba_project_init` never returns a result: the tag returned by the
optional-field step is bound at source line 144 through the undefined name
`id_tmp`, so the parse always fails. -/
theorem c7_tempfield_amended :
    (∀ (p0 p1 p2 p3 t : Nat) (rest : List Nat) (ds : List Diag),
        tempFieldStep ⟨0x4A :: 0x00 :: 0x04 :: 0x00 :: 0x00 :: 0x00 ::
            p0 :: p1 :: p2 :: p3 :: (u16le t ++ rest), ds⟩ = .ok (t, ⟨rest, ds⟩)) ∧
    (∀ (t : Nat) (rest : List Nat) (ds : List Diag), t ≠ 0x004A →
        tempFieldStep ⟨u16le t ++ rest, ds⟩ = .ok (t, ⟨rest, ds⟩)) ∧
    (∀ (sz : Nat) (bs : List Nat) (ds : List Diag), sz ≠ 4 → sz ≤ bs.length →
        tempFieldStep ⟨0x4A :: 0x00 :: (u32le sz ++ bs), ds⟩ = .error .truncatedStream) ∧
    (∀ (relaxed : Bool) (st r : PState), vbaProjectInit relaxed st ≠ .ok r) := by
  refine ⟨?_, ?_, ?_, ?_⟩
  · intro p0 p1 p2 p3 t rest ds
    simp [tempFieldStep, readU16_cons, readU32_cons, readU16_u16le, readBytes, bindE_ok]
  · intro t rest ds ht
    simp [tempFieldStep, readU16_u16le, bindE_ok, pureE, ht]
  · intro sz bs ds h4 hle
    simp [tempFieldStep, readU16_cons, readU32_u32le, readBytes, bindE_ok,
      Nat.min_eq_left hle, h4]
  · intro relaxed st r h
    unfold vbaProjectInit at h
    cases hs : projectsyskindRecord relaxed st with
    | error e =>
      rw [hs, bindE_error] at h
      exact Except.noConfusion h
    | ok p =>
      obtain ⟨sk, st1⟩ := p
      rw [hs, bindE_ok] at h
      cases ht : tempFieldStep st1 with
      | error e => simp [ht, bindE_error] at h
      | ok q => simp [ht, bindE_ok] at h

/-- Witness for `c7_tempfield_amended`: parts (2) and (3) at concrete
inputs, discharging their hypotheses. -/
theorem c7_witness :
    tempFieldStep ⟨u16le 0x0002 ++ [0xAA], []⟩ = .ok (0x0002, ⟨[0xAA], []⟩) ∧
    tempFieldStep ⟨0x4A :: 0x00 :: (u32le 2 ++ [0xAA, 0xBB]), []⟩ = .error .truncatedStream ∧
    vbaProjectInit true ⟨[], []⟩ ≠ .ok ⟨[], []⟩ :=
  ⟨c7_tempfield_amended.2.1 0x0002 [0xAA] [] (by decide),
   c7_tempfield_amended.2.2.1 2 [0xAA, 0xBB] [] (by decide) (by decide),
   c7_tempfield_amended.2.2.2 true ⟨[], []⟩ ⟨[], []⟩⟩

/-- **C8 counterexample.**  With the dir stream declaring code page 1252
and the driver invoked with the default `--src-encoding` (`shift_jis`), the
codec in effect when modules are decoded is `shift_jis` — the external
configuration — and not the codec resolved from the project's own stream
(`cp1252`): source line 431 overwrites `project.codec` before
`parse_modules` runs. -/
theorem c8_counterexample :
    moduleDecodeCodec 1252 "shift_jis" = "shift_jis" ∧
    codepage2codec 1252 = "cp1252" ∧
    moduleDecodeCodec 1252 "shift_jis" ≠ codepage2codec 1252 := by
  refine ⟨rfl, rfl, ?_⟩
  decide

/-- **C8 amended.**  The PROJECTCODEPAGE record does resolve a codec from
the code page read out of the stream (source line 171), but the codec in
effect for module decoding is always the driver-supplied `src_encoding`:
`extract_macros` overwrites the project's codec (source line 431) after
construction and before any module is parsed. -/
theorem c8_codec_amended (relaxed : Bool) (cp : Nat) (rest : List Nat)
    (ds : List Diag) (enc : String) :
    projectcodepageRecord relaxed
        ⟨0x03 :: 0x00 :: 0x02 :: 0x00 :: 0x00 :: 0x00 :: (u16le cp ++ rest), ds⟩
      = .ok ((cp, codepage2codec cp), ⟨rest, ds⟩) ∧
    moduleDecodeCodec cp enc = enc := by
  constructor
  · simp [projectcodepageRecord, check_value, readU16_cons, readU32_cons,
      readU16_u16le, bindE_ok, pureE]
  · rfl

/-- **C9 counterexample.**  A source argument that is not a directory is
yielded by `get_source_paths` unconditionally: the file `~$evil.txt` starts
with the lock-file marker and has an extension outside the allow-list, yet
it is processed. -/
theorem c9_counterexample :
    getSourcePaths [⟨"~$evil.txt", false, []⟩] = ["~$evil.txt"] ∧
    strStartsWith "~$evil.txt" "~$" = true ∧
    officeFileExtensions.contains (strToLower (pathSuffix "~$evil.txt")) = false := by
  refine ⟨rfl, ?_, ?_⟩ <;> decide

/-- **C9 amended.**  Every file yielded by `get_source_paths` either came
from a *directory* source — in which case it passes the lock-file-prefix
and extension-allow-list filter — or was passed directly as a
non-directory source, in which case it is yielded with no filtering at
all. -/
theorem c9_filter_amended (sources : List SrcArg) (f : String)
    (hf : f ∈ getSourcePaths sources) :
    (∃ s ∈ sources, s.isDir = false ∧ f = s.name) ∨
    (strStartsWith f "~$" = false ∧
      officeFileExtensions.contains (strToLower (pathSuffix f)) = true) := by
  unfold getSourcePaths at hf
  rw [List.mem_flatMap] at hf
  obtain ⟨s, hs, hfs⟩ := hf
  by_cases hd : s.isDir
  · right
    rw [if_pos hd, List.mem_filter] at hfs
    have hpred := hfs.2
    rw [Bool.and_eq_true] at hpred
    exact ⟨(Bool.not_eq_true' _) ▸ hpred.1, hpred.2⟩
  · left
    rw [if_neg hd] at hfs
    rw [List.mem_singleton] at hfs
    exact ⟨s, hs, (Bool.not_eq_true _) ▸ hd, hfs⟩

/-- Witness for `c9_filter_amended` at a single non-directory source. -/
theorem c9_witness :
    (∃ s ∈ [(⟨"a.txt", false, []⟩ : SrcArg)], s.isDir = false ∧ "a.txt" = s.name) ∨
    (strStartsWith "a.txt" "~$" = false ∧
      officeFileExtensions.contains (strToLower (pathSuffix "a.txt")) = true) :=
  c9_filter_amended [⟨"a.txt", false, []⟩] "a.txt" (by decide)

/-- **C10.**  Part 1: after the per-source destination preparation of
`main` (mkdir with parents, then rmtree), *nothing* under
`<dest>/<source-basename>` exists — every path having the per-source
directory as a prefix (the directory itself included) is removed, whatever
the previous filesystem contents.  Part 2: `get_outputpath` (re)creates the
output subdirectory on write: the parent directory of the path it returns
exists in the resulting filesystem. -/
theorem c10_dest_cleanup :
    (∀ (root : FPath) (basename : String) (fs : List FPath) (q : FPath),
        (root ++ [basename]).isPrefixOf q = true → q ∉ destPrepare root basename fs) ∧
    (∀ (parentDir : FPath) (filename : String) (useOrig : Bool) (fs : List FPath),
        ((getOutputpath parentDir filename useOrig fs).1).dropLast
          ∈ (getOutputpath parentDir filename useOrig fs).2) := by
  constructor
  · intro root basename fs q hpre hmem
    unfold destPrepare rmtreeFS at hmem
    rw [List.mem_filter, hpre] at hmem
    exact absurd hmem.2 (by decide)
  · intro parentDir filename useOrig fs
    have hdl : ∀ (l : List String) (a : String), (l ++ [a]).dropLast = l := by
      intro l a
      simp
    have hmk : ∀ (p : FPath) (fs : List FPath), p ∈ mkdirP p fs := by
      intro p fs
      unfold mkdirP
      exact List.mem_append_right _ ((List.mem_inits _ _).mpr List.prefix_rfl)
    unfold getOutputpath
    dsimp only
    split
    · rw [hdl]
      split
      next h => exact h
      next h => exact hmk _ _
    · split
      · rw [hdl]
        split
        next h => exact h
        next h => exact hmk _ _
      · rw [hdl]
        split
        next h => exact h
        next h => exact hmk _ _

/-- Witness for `c10_dest_cleanup`: the per-source directory for
`Book1` and a leftover module file under it are both gone after the
preparation step. -/
theorem c10_witness :
    (["vba_src", "Book1"] : FPath) ∉ destPrepare ["vba_src"] "Book1"
      [["vba_src"], ["vba_src", "Book1"], ["vba_src", "Book1", "module", "Mod1.bas.vb"]] :=
  c10_dest_cleanup.1 ["vba_src"] "Book1"
    [["vba_src"], ["vba_src", "Book1"], ["vba_src", "Book1", "module", "Mod1.bas.vb"]]
    ["vba_src", "Book1"] (by decide)
